import Mathlib

/-!
Verification of the voiceTrimmer Telegram bot's session state machine and
conversion pipeline, shallowly embedded from `src/bot.py`,
`src/audio_processor.py` and `config/settings.py`.

The per-user mutable dictionary `context.user_data` is modelled as a record,
the filesystem as a map from paths to optional byte sizes, and the external
`ffprobe` / `ffmpeg` processes as an explicit environment of outcome
functions.  Handlers are pure functions returning the new user state, the
outbound messages in order, and the filesystem after temporary-directory
cleanup.
-/

namespace VoiceTrimmer

/-- `MAX_DURATION` from `config/settings.py` (the default of the env var). -/
def MAX_DURATION : Int := 60

/-- `MIN_DURATION` from `config/settings.py`. -/
def MIN_DURATION : Int := 1

/-- The per-user mutable state `context.user_data` of `bot.py`: keys
`processing`, `target_duration`, `file_path`; a key never written reads as
`None`, modelled as `none` / `false`. -/
structure UserData where
  processing : Bool
  target_duration : Option Int
  file_path : Option String
deriving DecidableEq

/-- Python truthiness of `user_data.get('target_duration')` (bot.py:130):
`None` and `0` are falsy, every other integer truthy. -/
def truthyInt : Option Int → Bool
  | none => false
  | some n => n != 0

/-- Python truthiness of `user_data.get('file_path')` (bot.py:185):
`None` and the empty string are falsy. -/
def truthyStr : Option String → Bool
  | none => false
  | some s => s != ""

/-- A model filesystem: each path is absent (`none`) or present with a size. -/
def FS : Type := String → Option Nat

/-- Writing (`some size`) or deleting (`none`) a single path. -/
def FS.update (fs : FS) (p : String) (v : Option Nat) : FS :=
  fun q => if q = p then v else fs q

/-- Outcome of one `ffprobe` run (`subprocess.run` in `get_duration`,
audio_processor.py:49): the 10-second timeout fires, or the process exits
with a return code and the `float(stdout.strip())` parse of its output
(`none` when parsing raises `ValueError`). -/
inductive ProbeOutcome where
  | timeout : ProbeOutcome
  | exited : Int → Option ℚ → ProbeOutcome
deriving DecidableEq

/-- The argument list `convert_to_voice` passes to `ffmpeg`
(audio_processor.py:98-109). -/
structure FfmpegCall where
  input_path : String
  trim_end : ℚ
  acodec : String
  bitrate : String
  sample_rate : Int
  channels : Int
  output_path : String
deriving DecidableEq

/-- Outcome of one `ffmpeg` run (audio_processor.py:113-118): the 300-second
timeout fires, or the process exits with a return code having left the output
path absent (`none`) or present with a byte size. -/
inductive FfmpegOutcome where
  | timeout : FfmpegOutcome
  | exited : Int → Option Nat → FfmpegOutcome
deriving DecidableEq

/-- The external world: behaviour of `ffprobe` and `ffmpeg` as a function of
the current filesystem, and the fresh directory that
`tempfile.TemporaryDirectory()` yields. -/
structure Env where
  probe : FS → String → ProbeOutcome
  ffmpeg : FS → FfmpegCall → FfmpegOutcome
  newTempDir : FS → String

/-- `AudioProcessor.get_duration` (audio_processor.py:31-64): run `ffprobe`;
on exit code 0 return the parsed stdout, otherwise (non-zero exit, timeout,
or parse failure) return `None`. -/
def get_duration (env : Env) (fs : FS) (file_path : String) : Option ℚ :=
  match env.probe fs file_path with
  | ProbeOutcome.timeout => none
  | ProbeOutcome.exited rc out => if rc = 0 then out else none

/-- The `ffmpeg` command built at audio_processor.py:95-109 for an input of
actual duration `actual`: `-t min(target_duration, actual_duration)
-acodec libopus -ab 128k -ar sample_rate -ac channels`. -/
def ffmpegCallFor (input_path output_path : String) (target_duration : Int)
    (actual : ℚ) (sample_rate channels : Int) : FfmpegCall :=
  { input_path := input_path
    trim_end := min (target_duration : ℚ) actual
    acodec := "libopus"
    bitrate := "128k"
    sample_rate := sample_rate
    channels := channels
    output_path := output_path }

/-- `AudioProcessor.convert_to_voice` (audio_processor.py:66-141).  Returns
the success flag, the filesystem after the attempt, and the `ffmpeg` call it
issued (`none` when it failed before reaching `ffmpeg`).  The Python defaults
`sample_rate=48000, channels=1` are passed explicitly by the callers below. -/
def convert_to_voice (env : Env) (fs : FS) (input_path output_path : String)
    (target_duration sample_rate channels : Int) :
    Bool × FS × Option FfmpegCall :=
  match get_duration env fs input_path with
  | none => (false, fs, none)
  | some actual_duration =>
    let call := ffmpegCallFor input_path output_path target_duration
      actual_duration sample_rate channels
    match env.ffmpeg fs call with
    | FfmpegOutcome.timeout => (false, fs, some call)
    | FfmpegOutcome.exited rc outSize =>
      let fs1 := FS.update fs output_path outSize
      if rc ≠ 0 then (false, fs1, some call)
      else
        match outSize with
        | none => (false, fs1, some call)
        | some sz => if sz = 0 then (false, fs1, some call) else (true, fs1, some call)

/-- Outbound messages, in the order the handlers send them. -/
inductive Msg where
  | busy : Msg
  | notAudio : Msg
  | tooLarge : Msg
  | downloading : Msg
  | promptDuration : Option ℚ → Msg
  | processingMsg : Msg
  | sending : Msg
  | failed : Msg
  | voiceReply : Int → String → Msg
  | done : Msg
  | sendAudioFirst : Msg
  | invalidRange : Msg
  | invalidNumber : Msg
  | cancelled : Msg
  | nothingToCancel : Msg
deriving DecidableEq

/-- The caption string built at bot.py:164 and bot.py:221. -/
def captionFor (duration : Int) : String := "Duration: " ++ toString duration ++ "s"

/-- An inbound file-upload update: whether any of `audio` / `document` /
`voice` is present, with its size and optional name. -/
structure Upload where
  present : Bool
  file_size : Nat
  file_name : Option String
deriving DecidableEq

/-- The download target `Path(temp_dir) / (audio.file_name or
f"audio_{user_id}")` (bot.py:126), for the temp dir this upload gets. -/
def inputPathOf (env : Env) (fs : FS) (u : Upload) (user_id : Nat) : String :=
  env.newTempDir fs ++ "/" ++ u.file_name.getD ("audio_" ++ toString user_id)

/-- The filesystem after `file.download_to_drive(input_path)` (bot.py:127). -/
def downloadFS (env : Env) (fs : FS) (u : Upload) (user_id : Nat) : FS :=
  FS.update fs (inputPathOf env fs u user_id) (some u.file_size)

/-- The output path `Path(temp_dir) / "output.ogg"` used by `handle_text`
(bot.py:202). -/
def textOutputPath (env : Env) (fs : FS) : String := env.newTempDir fs ++ "/output.ogg"

/-- `VoiceMessageBot.cancel` (bot.py:82-89): if the `processing` flag is
truthy, clear it and confirm; otherwise report no operation in progress. -/
def cancel (ud : UserData) : UserData × List Msg :=
  if ud.processing then ({ ud with processing := false }, [Msg.cancelled])
  else (ud, [Msg.nothingToCancel])

/-- `VoiceMessageBot.handle_audio` (bot.py:91-180): returns the new user
state, the outbound messages in order, and the filesystem after the
`with tempfile.TemporaryDirectory()` block has cleaned up the files the
handler created inside it.  The download itself and the outbound replies are
assumed to succeed (the transport is out of scope). -/
def handle_audio (env : Env) (fs : FS) (ud : UserData) (u : Upload) (user_id : Nat) :
    UserData × List Msg × FS :=
  if ud.processing then (ud, [Msg.busy], fs)
  else
    let ud1 : UserData := { ud with processing := true }
    if u.present = false then ({ ud1 with processing := false }, [Msg.notAudio], fs)
    else if u.file_size > 50 * 1024 * 1024 then
      ({ ud1 with processing := false }, [Msg.tooLarge], fs)
    else
      let input_path := inputPathOf env fs u user_id
      let fs1 := downloadFS env fs u user_id
      if truthyInt ud1.target_duration = false then
        ({ ud1 with file_path := some input_path },
         [Msg.downloading, Msg.promptDuration (get_duration env fs1 input_path)],
         FS.update fs1 input_path none)
      else
        let target := ud1.target_duration.getD MAX_DURATION
        let output_path := env.newTempDir fs ++ "/output.ogg"
        let r := convert_to_voice env fs1 input_path output_path target 48000 1
        let fs2 := FS.update (FS.update r.2.1 input_path none) output_path none
        if r.1 then
          (⟨false, none, none⟩,
           [Msg.downloading, Msg.processingMsg, Msg.sending,
            Msg.voiceReply target (captionFor target), Msg.done], fs2)
        else
          ({ ud1 with processing := false },
           [Msg.downloading, Msg.processingMsg, Msg.failed], fs2)

/-- `VoiceMessageBot.handle_text` (bot.py:182-246).  `parsed` is the result
of `int(update.message.text)`, with `none` modelling the `ValueError`
branch.  Returns the new user state, the outbound messages in order, and the
filesystem after temp-dir cleanup. -/
def handle_text (env : Env) (fs : FS) (ud : UserData) (parsed : Option Int) :
    UserData × List Msg × FS :=
  if truthyStr ud.file_path then
    match parsed with
    | none => (ud, [Msg.invalidNumber], fs)
    | some duration =>
      if duration < 1 ∨ duration > MAX_DURATION then (ud, [Msg.invalidRange], fs)
      else
        let ud1 := { ud with target_duration := some duration }
        let input_path := ud.file_path.getD ""
        let output_path := textOutputPath env fs
        let r := convert_to_voice env fs input_path output_path duration 48000 1
        let fs2 := FS.update r.2.1 output_path none
        if r.1 then
          (⟨false, none, none⟩,
           [Msg.processingMsg, Msg.voiceReply duration (captionFor duration)], fs2)
        else
          (ud1, [Msg.processingMsg, Msg.failed], fs2)
  else (ud, [Msg.sendAudioFirst], fs)

/-- The spec's session status (spec §3). -/
inductive Status where
  | Idle : Status
  | AwaitingDuration : Status
  | Processing : Status
deriving DecidableEq

/-- The status of a `user_data` record, read off the code's own dispatch:
`handle_text` treats the session as awaiting a duration exactly when
`file_path` is truthy (bot.py:185), and `handle_audio` / `cancel` treat it
as busy exactly when the `processing` flag is truthy (bot.py:94, bot.py:84). -/
def statusOf (ud : UserData) : Status :=
  if truthyStr ud.file_path then Status.AwaitingDuration
  else if ud.processing then Status.Processing
  else Status.Idle

/-- One inbound update for a single participant. -/
inductive BotEvent where
  | upload : Upload → Nat → BotEvent
  | text : Option Int → BotEvent
  | cancelCmd : BotEvent
deriving DecidableEq

/-- One step of the bot's code on a (filesystem, user state) pair. -/
def codeStep (env : Env) (s : FS × UserData) : BotEvent → FS × UserData
  | BotEvent.upload u uid =>
    let r := handle_audio env s.1 s.2 u uid
    (r.2.2, r.1)
  | BotEvent.text parsed =>
    let r := handle_text env s.1 s.2 parsed
    (r.2.2, r.1)
  | BotEvent.cancelCmd => (s.1, (cancel s.2).1)

/-- The bot's code run over a list of inbound events. -/
def codeRun (env : Env) (s : FS × UserData) (es : List BotEvent) : FS × UserData :=
  es.foldl (codeStep env) s

/-- Modelled from the spec's transition table (§4.1), as a machine on the
spec-level `status` alone: a valid file received in `Idle` moves to
`AwaitingDuration`; a valid duration reply in `AwaitingDuration` moves to
`Processing` and, the conversion attempt completing within the same event,
on to `Idle`; an invalid reply re-prompts in place; cancel moves to `Idle`;
every other combination leaves the status unchanged. -/
def specStatusStep (s : Status) : BotEvent → Status
  | BotEvent.upload u _ =>
    if s = Status.Idle ∧ u.present = true ∧ u.file_size ≤ 50 * 1024 * 1024 then
      Status.AwaitingDuration
    else s
  | BotEvent.text parsed =>
    match s, parsed with
    | Status.AwaitingDuration, some d =>
      if MIN_DURATION ≤ d ∧ d ≤ MAX_DURATION then Status.Idle
      else Status.AwaitingDuration
    | Status.AwaitingDuration, none => Status.AwaitingDuration
    | s, _ => s
  | BotEvent.cancelCmd => Status.Idle

/-- The spec-level status machine run over a list of inbound events. -/
def specStatusRun (s : Status) (es : List BotEvent) : Status :=
  es.foldl specStatusStep s

/-- `ffprobe` invoked on a path that does not exist cannot open its input and
exits non-zero. -/
def ProbeRespectsFS (env : Env) : Prop :=
  ∀ fs p, fs p = none → ∀ rc out, env.probe fs p = ProbeOutcome.exited rc out → rc ≠ 0

/-- A world where every `ffprobe` call exits with code 1. -/
def envProbeFail : Env :=
  { probe := fun _ _ => ProbeOutcome.exited 1 none
    ffmpeg := fun _ _ => FfmpegOutcome.timeout
    newTempDir := fun _ => "/tmp/t0" }

/-- A world whose every existing or missing path probes as a 10-second audio
file and whose transcoder always succeeds with a 999-byte output. -/
def envShortOk : Env :=
  { probe := fun _ _ => ProbeOutcome.exited 0 (some 10)
    ffmpeg := fun _ _ => FfmpegOutcome.exited 0 (some 999)
    newTempDir := fun _ => "/tmp/t0" }

/-- A world whose every path probes as a 90-second audio file and whose
transcoder always succeeds. -/
def envLongOk : Env :=
  { probe := fun _ _ => ProbeOutcome.exited 0 (some 90)
    ffmpeg := fun _ _ => FfmpegOutcome.exited 0 (some 999)
    newTempDir := fun _ => "/tmp/t0" }

/-- A world where `ffprobe` fails exactly on missing files and reports 30
seconds on existing ones; the transcoder always succeeds. -/
def envFSAware : Env :=
  { probe := fun fs p =>
      match fs p with
      | none => ProbeOutcome.exited 1 none
      | some _ => ProbeOutcome.exited 0 (some 30)
    ffmpeg := fun _ _ => FfmpegOutcome.exited 0 (some 999)
    newTempDir := fun _ => "/tmp/t0" }

/-- The empty filesystem. -/
def fsEmpty : FS := fun _ => none

/-- A fresh session. -/
def udIdle : UserData := ⟨false, none, none⟩

/-- A small well-formed upload. -/
def u0 : Upload := ⟨true, 5, some "a.mp3"⟩

/-! ## Helper lemmas -/

/-- A session's dispatch status is `AwaitingDuration` exactly when its stored
file path is truthy. -/
theorem statusOf_awaiting_iff (ud : UserData) :
    statusOf ud = Status.AwaitingDuration ↔ truthyStr ud.file_path = true := by
  unfold statusOf
  by_cases h : truthyStr ud.file_path
  · simp [h]
  · simp only [h, Bool.false_eq_true, if_false]
    by_cases h2 : ud.processing <;> simp [h2]

/-- A session's dispatch status is `Processing` only if the `processing` flag
is set. -/
theorem statusOf_processing_flag (ud : UserData)
    (h : statusOf ud = Status.Processing) : ud.processing = true := by
  unfold statusOf at h
  by_cases h1 : truthyStr ud.file_path
  · simp [h1] at h
  · simp only [h1, Bool.false_eq_true, if_false] at h
    by_cases h2 : ud.processing
    · exact h2
    · simp [h2] at h

/-- With a probe respecting the filesystem, `get_duration` of a missing file
is `None`. -/
theorem get_duration_missing (env : Env) (hwb : ProbeRespectsFS env)
    (fs : FS) (p : String) (hfs : fs p = none) : get_duration env fs p = none := by
  unfold get_duration
  cases h : env.probe fs p with
  | timeout => rfl
  | exited rc out =>
    have hrc : rc ≠ 0 := hwb fs p hfs rc out h
    simp [hrc]

/-- A duration `d` with `MIN_DURATION ≤ d ≤ MAX_DURATION` passes the range
check of bot.py:189. -/
theorem range_check_passes (d : Int) (hlo : MIN_DURATION ≤ d)
    (hhi : d ≤ MAX_DURATION) : ¬ (d < 1 ∨ d > MAX_DURATION) := by
  simp only [MIN_DURATION] at hlo
  omega

/-- Once the input's duration probes successfully, `convert_to_voice` issues
the `ffmpeg` call built by `ffmpegCallFor`, whatever the transcoder then
does. -/
theorem convert_issues_call (env : Env) (fs : FS) (input_path output_path : String)
    (d sr ch : Int) (A : ℚ) (hdur : get_duration env fs input_path = some A) :
    (convert_to_voice env fs input_path output_path d sr ch).2.2
      = some (ffmpegCallFor input_path output_path d A sr ch) := by
  cases hF : env.ffmpeg fs (ffmpegCallFor input_path output_path d A sr ch) with
  | timeout => simp [convert_to_voice, hdur, hF]
  | exited rc outSize =>
    by_cases hrc : rc = 0
    · cases outSize with
      | none => simp [convert_to_voice, hdur, hF, hrc]
      | some sz =>
        by_cases hsz : sz = 0 <;> simp [convert_to_voice, hdur, hF, hrc, hsz]
    · simp [convert_to_voice, hdur, hF, hrc]

/-- The download path of an upload is never the empty string: it always
contains the `/` separating the temp dir from the file name. -/
theorem inputPathOf_ne_empty (env : Env) (fs : FS) (u : Upload) (uid : Nat) :
    inputPathOf env fs u uid ≠ "" := by
  unfold inputPathOf
  intro h
  have hl := congrArg String.length h
  simp [String.length_append] at hl
  exact absurd hl.1.2 (by decide)

/-! ## C1 -/

/-- C1 (amended): a duration reply with a pending file and an in-range parsed
duration either succeeds — the voice message is delivered and the session is
fully reset to Idle — or fails, in which case the session is NOT reset: the
pending file path and processing flag keep their old values and the target
duration stays set to the requested value. -/
theorem text_reset_iff_success (env : Env) (fs : FS) (ud : UserData) (d : Int)
    (hfile : truthyStr ud.file_path = true)
    (hlo : MIN_DURATION ≤ d) (hhi : d ≤ MAX_DURATION) :
    ((handle_text env fs ud (some d)).1 = (⟨false, none, none⟩ : UserData) ∧
     (handle_text env fs ud (some d)).2.1
       = [Msg.processingMsg, Msg.voiceReply d (captionFor d)]) ∨
    ((handle_text env fs ud (some d)).1 = { ud with target_duration := some d } ∧
     (handle_text env fs ud (some d)).2.1 = [Msg.processingMsg, Msg.failed]) := by
  have hrange := range_check_passes d hlo hhi
  by_cases hr : (convert_to_voice env fs (ud.file_path.getD "")
      (textOutputPath env fs) d 48000 1).1 = true
  · left
    constructor <;> simp [handle_text, hfile, hrange, hr]
  · right
    constructor <;> simp [handle_text, hfile, hrange, hr]

/-- C1 witness: in a world where conversion succeeds, the session is reset and
the voice reply is sent. -/
theorem text_reset_iff_success_witness :
    (((handle_text envShortOk fsEmpty ⟨true, none, some "w1.mp3"⟩ (some 30)).1
        = (⟨false, none, none⟩ : UserData) ∧
      (handle_text envShortOk fsEmpty ⟨true, none, some "w1.mp3"⟩ (some 30)).2.1
        = [Msg.processingMsg, Msg.voiceReply 30 (captionFor 30)]) ∨
     ((handle_text envShortOk fsEmpty ⟨true, none, some "w1.mp3"⟩ (some 30)).1
        = (⟨true, some 30, some "w1.mp3"⟩ : UserData) ∧
      (handle_text envShortOk fsEmpty ⟨true, none, some "w1.mp3"⟩ (some 30)).2.1
        = [Msg.processingMsg, Msg.failed])) :=
  text_reset_iff_success envShortOk fsEmpty ⟨true, none, some "w1.mp3"⟩ 30
    (by decide) (by decide) (by decide)

/-- C1 counterexample: with a pending file and the valid reply "30", a failed
conversion (probe failure) leaves the session un-reset — the processing flag,
target duration and pending file path are all still set afterwards. -/
theorem text_failure_not_reset_cx :
    (handle_text envProbeFail fsEmpty ⟨true, none, some "f.mp3"⟩ (some 30)).1
      = ⟨true, some 30, some "f.mp3"⟩ ∧
    ¬ ((handle_text envProbeFail fsEmpty ⟨true, none, some "f.mp3"⟩ (some 30)).1.processing
          = false ∧
       (handle_text envProbeFail fsEmpty ⟨true, none, some "f.mp3"⟩ (some 30)).1.target_duration
          = none ∧
       (handle_text envProbeFail fsEmpty ⟨true, none, some "f.mp3"⟩ (some 30)).1.file_path
          = none) := by decide

/-! ## C4 -/

/-- C4 (amended): cancel with the processing flag set clears only that flag
and emits the confirmation, leaving the pending file path and target duration
unchanged; cancel with the flag clear reports no operation in progress and
changes nothing. -/
theorem cancel_clears_only_processing (ud : UserData) :
    (ud.processing = true →
      cancel ud = ({ ud with processing := false }, [Msg.cancelled])) ∧
    (ud.processing = false →
      cancel ud = (ud, [Msg.nothingToCancel])) := by
  constructor <;> intro h <;> simp [cancel, h]

/-- C4 witness: cancel on a concrete busy session clears the flag, confirms,
and keeps the other fields. -/
theorem cancel_clears_only_processing_witness :
    cancel ⟨true, some 30, some "g.mp3"⟩
      = ((⟨false, some 30, some "g.mp3"⟩ : UserData), [Msg.cancelled]) :=
  (cancel_clears_only_processing ⟨true, some 30, some "g.mp3"⟩).1 rfl

/-- C4 counterexample: from a non-Idle session, cancel emits the confirmation
but does not clear the optional fields. -/
theorem cancel_not_clearing_cx :
    statusOf ⟨true, some 30, some "f.mp3"⟩ ≠ Status.Idle ∧
    (cancel ⟨true, some 30, some "f.mp3"⟩).2 = [Msg.cancelled] ∧
    (cancel ⟨true, some 30, some "f.mp3"⟩).1.file_path ≠ none ∧
    (cancel ⟨true, some 30, some "f.mp3"⟩).1.target_duration ≠ none := by decide

/-! ## C2 -/

/-- C2: an upload handled with no target duration set stores a pending file
path whose file is gone by the time the handler returns (the temporary
directory is torn down by the `with` block before the duration reply can
arrive), so any later duration reply in range finds the file missing, fails
at `get_duration`, reports failure, and never sends a voice reply. -/
theorem upload_prompt_orphans_file (env : Env) (hwb : ProbeRespectsFS env)
    (fs : FS) (ud : UserData) (u : Upload) (uid : Nat)
    (hp : ud.processing = false) (ht : truthyInt ud.target_duration = false)
    (hpres : u.present = true) (hsize : u.file_size ≤ 50 * 1024 * 1024) :
    (handle_audio env fs ud u uid).1.file_path = some (inputPathOf env fs u uid) ∧
    (handle_audio env fs ud u uid).2.2 (inputPathOf env fs u uid) = none ∧
    (∀ fs2 d, fs2 (inputPathOf env fs u uid) = none →
      MIN_DURATION ≤ d → d ≤ MAX_DURATION →
      get_duration env fs2 (inputPathOf env fs u uid) = none ∧
      (handle_text env fs2 (handle_audio env fs ud u uid).1 (some d)).2.1
        = [Msg.processingMsg, Msg.failed] ∧
      ∀ dd c, Msg.voiceReply dd c ∉
        (handle_text env fs2 (handle_audio env fs ud u uid).1 (some d)).2.1) := by
  have hbig : ¬ (u.file_size > 50 * 1024 * 1024) := Nat.not_lt.mpr hsize
  have hha : handle_audio env fs ud u uid
      = ({ ud with processing := true, file_path := some (inputPathOf env fs u uid) },
         [Msg.downloading,
          Msg.promptDuration (get_duration env (downloadFS env fs u uid)
            (inputPathOf env fs u uid))],
         FS.update (downloadFS env fs u uid) (inputPathOf env fs u uid) none) := by
    simp [handle_audio, hp, hpres, hbig, ht]
  refine ⟨by rw [hha], by rw [hha]; simp [FS.update], ?_⟩
  intro fs2 d hfs2 hlo hhi
  have hgd : get_duration env fs2 (inputPathOf env fs u uid) = none :=
    get_duration_missing env hwb fs2 _ hfs2
  have hrange := range_check_passes d hlo hhi
  have htruthy : truthyStr (handle_audio env fs ud u uid).1.file_path = true := by
    rw [hha]
    simp [truthyStr, inputPathOf_ne_empty env fs u uid]
  have hfp : (handle_audio env fs ud u uid).1.file_path.getD ""
      = inputPathOf env fs u uid := by rw [hha]; rfl
  have hconv : (convert_to_voice env fs2 ((handle_audio env fs ud u uid).1.file_path.getD "")
      (textOutputPath env fs2) d 48000 1).1 = false := by
    rw [hfp]
    simp [convert_to_voice, hgd]
  refine ⟨hgd, ?_, ?_⟩
  · simp [handle_text, htruthy, hrange, hconv]
  · intro dd c
    simp [handle_text, htruthy, hrange, hconv]

/-- C2 witness: in a concrete world whose probe fails exactly on missing
files, a fresh upload prompts, the stored path is gone, and the immediate
reply "30" fails without a voice message. -/
theorem upload_prompt_orphans_file_witness :
    (handle_audio envFSAware fsEmpty udIdle u0 7).1.file_path
      = some (inputPathOf envFSAware fsEmpty u0 7) ∧
    (handle_audio envFSAware fsEmpty udIdle u0 7).2.2
      (inputPathOf envFSAware fsEmpty u0 7) = none ∧
    get_duration envFSAware fsEmpty (inputPathOf envFSAware fsEmpty u0 7) = none ∧
    (handle_text envFSAware fsEmpty (handle_audio envFSAware fsEmpty udIdle u0 7).1
        (some 30)).2.1 = [Msg.processingMsg, Msg.failed] ∧
    ∀ dd c, Msg.voiceReply dd c ∉
      (handle_text envFSAware fsEmpty (handle_audio envFSAware fsEmpty udIdle u0 7).1
        (some 30)).2.1 := by
  have hwb : ProbeRespectsFS envFSAware := by
    intro fs p hfs rc out hpr
    simp [envFSAware, hfs] at hpr
    omega
  have h := upload_prompt_orphans_file envFSAware hwb fsEmpty udIdle u0 7
    rfl rfl rfl (by decide)
  have h3 := h.2.2 fsEmpty 30 rfl (by decide) (by decide)
  exact ⟨h.1, h.2.1, h3.1, h3.2.1, h3.2.2⟩

/-! ## C3 -/

/-- C3: for an input whose probed duration is `A` and a requested duration
`d` in `[MIN_DURATION, MAX_DURATION]`, the conversion invokes the transcoder
with effective trim length exactly `min(d, A)` — which is never more than `A`
(no padding of short inputs) and never more than `d`. -/
theorem convert_trim_is_min (env : Env) (fs : FS) (input_path output_path : String)
    (d : Int) (A : ℚ) (_hlo : MIN_DURATION ≤ d) (_hhi : d ≤ MAX_DURATION)
    (hdur : get_duration env fs input_path = some A) :
    (convert_to_voice env fs input_path output_path d 48000 1).2.2
      = some (ffmpegCallFor input_path output_path d A 48000 1) ∧
    (ffmpegCallFor input_path output_path d A 48000 1).trim_end = min (d : ℚ) A ∧
    (ffmpegCallFor input_path output_path d A 48000 1).trim_end ≤ A ∧
    (ffmpegCallFor input_path output_path d A 48000 1).trim_end ≤ (d : ℚ) := by
  exact ⟨convert_issues_call env fs input_path output_path d 48000 1 A hdur,
    rfl, min_le_right _ _, min_le_left _ _⟩

/-- C3 witness: a 90-second input trimmed to the requested 45 seconds —
`min(45, 90) = 45`. -/
theorem convert_trim_is_min_witness :
    (convert_to_voice envLongOk fsEmpty "in.mp3" "out.ogg" 45 48000 1).2.2
      = some (ffmpegCallFor "in.mp3" "out.ogg" 45 90 48000 1) ∧
    (ffmpegCallFor "in.mp3" "out.ogg" 45 90 48000 1).trim_end = min ((45 : Int) : ℚ) 90 ∧
    (ffmpegCallFor "in.mp3" "out.ogg" 45 90 48000 1).trim_end ≤ (90 : ℚ) ∧
    (ffmpegCallFor "in.mp3" "out.ogg" 45 90 48000 1).trim_end ≤ ((45 : Int) : ℚ) :=
  convert_trim_is_min envLongOk fsEmpty "in.mp3" "out.ogg" 45 90
    (by decide) (by decide) rfl

/-! ## C5 -/

/-- C5: a text reply in `AwaitingDuration` that fails to parse as an integer
or parses outside `[MIN_DURATION, MAX_DURATION]` leaves the session (and the
filesystem) unchanged — the pending file path in particular — and emits only
the corrective re-prompt; no conversion is triggered. -/
theorem invalid_duration_keeps_awaiting (env : Env) (fs : FS) (ud : UserData)
    (parsed : Option Int) (hst : statusOf ud = Status.AwaitingDuration)
    (hbad : parsed = none ∨
      ∃ d, parsed = some d ∧ (d < MIN_DURATION ∨ MAX_DURATION < d)) :
    (handle_text env fs ud parsed).1 = ud ∧
    (handle_text env fs ud parsed).2.2 = fs ∧
    ((handle_text env fs ud parsed).2.1 = [Msg.invalidNumber] ∨
     (handle_text env fs ud parsed).2.1 = [Msg.invalidRange]) := by
  have hfile : truthyStr ud.file_path = true := (statusOf_awaiting_iff ud).mp hst
  rcases hbad with h | ⟨d, hd, hout⟩
  · subst h
    refine ⟨?_, ?_, Or.inl ?_⟩ <;> simp [handle_text, hfile]
  · subst hd
    have hfail : d < 1 ∨ d > MAX_DURATION := by
      simp only [MIN_DURATION] at hout
      omega
    refine ⟨?_, ?_, Or.inr ?_⟩ <;> simp [handle_text, hfile, hfail]

/-- C5 witness: the unparsable reply "abc" (modelled as a `ValueError`) with
a pending file leaves the concrete session untouched and re-prompts. -/
theorem invalid_duration_keeps_awaiting_witness :
    (handle_text envProbeFail fsEmpty ⟨true, none, some "f2.mp3"⟩ none).1
      = (⟨true, none, some "f2.mp3"⟩ : UserData) ∧
    (handle_text envProbeFail fsEmpty ⟨true, none, some "f2.mp3"⟩ none).2.2 = fsEmpty ∧
    ((handle_text envProbeFail fsEmpty ⟨true, none, some "f2.mp3"⟩ none).2.1
        = [Msg.invalidNumber] ∨
     (handle_text envProbeFail fsEmpty ⟨true, none, some "f2.mp3"⟩ none).2.1
        = [Msg.invalidRange]) :=
  invalid_duration_keeps_awaiting envProbeFail fsEmpty ⟨true, none, some "f2.mp3"⟩
    none (by decide) (Or.inl rfl)

/-! ## C6 -/

/-- C6: a file upload arriving while the session's status is `Processing` is
rejected with the busy message; the user state and the filesystem are
returned completely unchanged. -/
theorem upload_while_processing_rejected (env : Env) (fs : FS) (ud : UserData)
    (u : Upload) (uid : Nat) (hst : statusOf ud = Status.Processing) :
    handle_audio env fs ud u uid = (ud, [Msg.busy], fs) := by
  have hp : ud.processing = true := statusOf_processing_flag ud hst
  simp [handle_audio, hp]

/-- C6 witness: a concrete busy session rejects a concrete upload without any
state change. -/
theorem upload_while_processing_rejected_witness :
    handle_audio envProbeFail fsEmpty ⟨true, none, none⟩ u0 3
      = ((⟨true, none, none⟩ : UserData), [Msg.busy], fsEmpty) :=
  upload_while_processing_rejected envProbeFail fsEmpty ⟨true, none, none⟩ u0 3
    (by decide)

/-! ## C7 -/

/-- C7 (amended): if the media-inspection call fails during upload handling,
the bot nonetheless stores the pending file path and prompts for a duration
— interpolating the failed probe's `None` into the prompt text — leaving the
processing flag set; it neither reports a generic processing error nor
resets the session to Idle. -/
theorem upload_probe_fail_still_prompts (env : Env) (fs : FS) (ud : UserData)
    (u : Upload) (uid : Nat) (hp : ud.processing = false)
    (ht : truthyInt ud.target_duration = false) (hpres : u.present = true)
    (hsize : u.file_size ≤ 50 * 1024 * 1024)
    (hfail : get_duration env (downloadFS env fs u uid)
      (inputPathOf env fs u uid) = none) :
    (handle_audio env fs ud u uid).1
      = { ud with processing := true,
                  file_path := some (inputPathOf env fs u uid) } ∧
    (handle_audio env fs ud u uid).2.1
      = [Msg.downloading, Msg.promptDuration none] := by
  have hbig : ¬ (u.file_size > 50 * 1024 * 1024) := Nat.not_lt.mpr hsize
  constructor <;> simp [handle_audio, hp, hpres, hbig, ht, hfail]

/-- C7 witness: a concrete upload into a world whose probe always exits 1. -/
theorem upload_probe_fail_still_prompts_witness :
    (handle_audio envProbeFail fsEmpty udIdle u0 7).1
      = (⟨true, none, some (inputPathOf envProbeFail fsEmpty u0 7)⟩ : UserData) ∧
    (handle_audio envProbeFail fsEmpty udIdle u0 7).2.1
      = [Msg.downloading, Msg.promptDuration none] :=
  upload_probe_fail_still_prompts envProbeFail fsEmpty udIdle u0 7
    rfl rfl rfl (by decide) (by decide)

/-- C7 counterexample: with a failing probe, the handler stores the file,
prompts anyway, and leaves the session non-Idle — it is not reset and no
generic error is reported. -/
theorem upload_probe_fail_no_reset_cx :
    (handle_audio envProbeFail fsEmpty udIdle u0 9).1
      = (⟨true, none, some "/tmp/t0/a.mp3"⟩ : UserData) ∧
    (handle_audio envProbeFail fsEmpty udIdle u0 9).2.1
      = [Msg.downloading, Msg.promptDuration none] ∧
    statusOf (handle_audio envProbeFail fsEmpty udIdle u0 9).1 ≠ Status.Idle := by
  decide

/-! ## C8 -/

/-- C8: the conversion returns failure exactly when the inspector cannot
obtain the input duration, or the transcoder times out, or it exits non-zero,
or the output file is missing or empty — in particular a missing or empty
output counts as failure even when the transcoder exited with status zero. -/
theorem convert_failure_iff (env : Env) (fs : FS) (input_path output_path : String)
    (d sr ch : Int) :
    (convert_to_voice env fs input_path output_path d sr ch).1 = false ↔
      get_duration env fs input_path = none ∨
      ∃ A, get_duration env fs input_path = some A ∧
        (env.ffmpeg fs (ffmpegCallFor input_path output_path d A sr ch)
            = FfmpegOutcome.timeout ∨
         ∃ rc outSize,
           env.ffmpeg fs (ffmpegCallFor input_path output_path d A sr ch)
              = FfmpegOutcome.exited rc outSize ∧
           (rc ≠ 0 ∨ outSize = none ∨ outSize = some 0)) := by
  cases hA : get_duration env fs input_path with
  | none => simp [convert_to_voice, hA]
  | some A =>
    cases hF : env.ffmpeg fs (ffmpegCallFor input_path output_path d A sr ch) with
    | timeout => simp [convert_to_voice, hA, hF]
    | exited rc outSize =>
      by_cases hrc : rc = 0
      · subst hrc
        cases outSize with
        | none =>
          have hL : (convert_to_voice env fs input_path output_path d sr ch).1
              = false := by simp [convert_to_voice, hA, hF]
          exact iff_of_true hL
            (Or.inr ⟨A, rfl, Or.inr ⟨0, none, hF, Or.inr (Or.inl rfl)⟩⟩)
        | some sz =>
          by_cases hsz : sz = 0
          · subst hsz
            have hL : (convert_to_voice env fs input_path output_path d sr ch).1
                = false := by simp [convert_to_voice, hA, hF]
            exact iff_of_true hL
              (Or.inr ⟨A, rfl, Or.inr ⟨0, some 0, hF, Or.inr (Or.inr rfl)⟩⟩)
          · have hL : (convert_to_voice env fs input_path output_path d sr ch).1
                = true := by simp [convert_to_voice, hA, hF, hsz]
            apply iff_of_false (by simp [hL])
            rintro (hnone | ⟨A', hA', hT | ⟨rc', os', hE, hbad⟩⟩)
            · exact Option.noConfusion hnone
            · injection hA' with hAA
              subst hAA
              rw [hF] at hT
              exact FfmpegOutcome.noConfusion hT
            · injection hA' with hAA
              subst hAA
              rw [hF] at hE
              injection hE with h1 h2
              subst h1
              subst h2
              rcases hbad with h0 | hnone2 | hzero
              · exact h0 rfl
              · exact Option.noConfusion hnone2
              · exact hsz (Option.some.inj hzero)
      · have hL : (convert_to_voice env fs input_path output_path d sr ch).1
            = false := by simp [convert_to_voice, hA, hF, hrc]
        exact iff_of_true hL
          (Or.inr ⟨A, rfl, Or.inr ⟨rc, outSize, hF, Or.inl hrc⟩⟩)

/-! ## C9 -/

/-- C9 (amended): what the code guarantees is the dispatch-level reading of
the invariant — a session's stored pending file path is truthy exactly when
`handle_text` treats an incoming text as a duration answer instead of
replying that an audio file must be sent first.  The spec-level `status`
machine desynchronizes from the stored path (see the counterexample). -/
theorem pending_file_iff_duration_dispatch (env : Env) (fs : FS) (ud : UserData)
    (parsed : Option Int) :
    truthyStr ud.file_path = true ↔
      (handle_text env fs ud parsed).2.1 ≠ [Msg.sendAudioFirst] := by
  by_cases h : truthyStr ud.file_path
  · simp only [h, true_iff]
    cases parsed with
    | none => simp [handle_text, h]
    | some d =>
      by_cases hd : d < 1 ∨ d > MAX_DURATION
      · simp [handle_text, h, hd]
      · by_cases hr : (convert_to_voice env fs (ud.file_path.getD "")
            (textOutputPath env fs) d 48000 1).1 = true <;>
          simp [handle_text, h, hd, hr]
  · simp [handle_text, h]

/-- C9 counterexample: running the code and the spec's status machine side by
side over upload-then-valid-reply in a world whose probe fails, the
conversion attempt fails, the spec status returns to Idle, yet the stored
pending file path is still set — the claimed "set iff AwaitingDuration"
equivalence is false in this reachable state. -/
theorem pending_file_spec_status_desync_cx :
    truthyStr (codeRun envProbeFail (fsEmpty, udIdle)
        [BotEvent.upload u0 7, BotEvent.text (some 30)]).2.file_path = true ∧
    specStatusRun Status.Idle [BotEvent.upload u0 7, BotEvent.text (some 30)]
      = Status.Idle ∧
    ¬ (truthyStr (codeRun envProbeFail (fsEmpty, udIdle)
          [BotEvent.upload u0 7, BotEvent.text (some 30)]).2.file_path = true ↔
       specStatusRun Status.Idle [BotEvent.upload u0 7, BotEvent.text (some 30)]
         = Status.AwaitingDuration) := by decide

/-! ## C10 -/

/-- C10: when a duration reply `d` leads to a successful conversion, the
voice reply's duration field and its caption both state the requested `d`,
even when the input's probed duration `A` is smaller than `d` — in which
case the trim length actually requested from the transcoder, `min(d, A)`,
is strictly less than the advertised `d`. -/
theorem voice_reply_states_requested_duration (env : Env) (fs : FS)
    (ud : UserData) (d : Int) (A : ℚ)
    (hst : statusOf ud = Status.AwaitingDuration)
    (hlo : MIN_DURATION ≤ d) (hhi : d ≤ MAX_DURATION)
    (hdur : get_duration env fs (ud.file_path.getD "") = some A)
    (hA : A < (d : ℚ))
    (hsucc : (convert_to_voice env fs (ud.file_path.getD "")
        (textOutputPath env fs) d 48000 1).1 = true) :
    (handle_text env fs ud (some d)).2.1
      = [Msg.processingMsg, Msg.voiceReply d (captionFor d)] ∧
    (convert_to_voice env fs (ud.file_path.getD "")
        (textOutputPath env fs) d 48000 1).2.2
      = some (ffmpegCallFor (ud.file_path.getD "") (textOutputPath env fs)
          d A 48000 1) ∧
    (ffmpegCallFor (ud.file_path.getD "") (textOutputPath env fs)
        d A 48000 1).trim_end < (d : ℚ) := by
  have hfile := (statusOf_awaiting_iff ud).mp hst
  have hrange := range_check_passes d hlo hhi
  refine ⟨?_, convert_issues_call env fs _ _ d 48000 1 A hdur, ?_⟩
  · simp [handle_text, hfile, hrange, hsucc]
  · show min (d : ℚ) A < (d : ℚ)
    rw [min_eq_right (le_of_lt hA)]
    exact hA

/-- C10 witness: a 10-second input, requested duration 30 — the reply
advertises 30 s in both the duration field and the caption while only
`min(30, 10) = 10` seconds were requested from the transcoder. -/
theorem voice_reply_states_requested_duration_witness :
    (handle_text envShortOk fsEmpty ⟨true, none, some "h.mp3"⟩ (some 30)).2.1
      = [Msg.processingMsg, Msg.voiceReply 30 (captionFor 30)] ∧
    (convert_to_voice envShortOk fsEmpty "h.mp3"
        (textOutputPath envShortOk fsEmpty) 30 48000 1).2.2
      = some (ffmpegCallFor "h.mp3" (textOutputPath envShortOk fsEmpty)
          30 10 48000 1) ∧
    (ffmpegCallFor "h.mp3" (textOutputPath envShortOk fsEmpty)
        30 10 48000 1).trim_end < ((30 : Int) : ℚ) :=
  voice_reply_states_requested_duration envShortOk fsEmpty
    ⟨true, none, some "h.mp3"⟩ 30 10 (by decide) (by decide) (by decide)
    (by decide) (by decide) (by decide)

end VoiceTrimmer
